import Mathlib

/-!
Shallow embedding of the download orchestration core of `spiders-for-all`
(files `spiders_for_all/core/downloader.py`, `spiders_for_all/core/media.py`,
`spiders_for_all/core/client.py`, `spiders_for_all/utils/decorator.py`),
together with theorems settling the spec claims about it.

Python exceptions are modelled by an explicit `Exc` type and fallible code
returns `Except Exc _`; generators are modelled by the full trace of values
they yield plus their final outcome; mutable attributes become explicit
record fields threaded through the functions that mutate them.
-/

namespace SpidersForAll

/-- Model of the Python exceptions that flow through the downloader core:
`KeyboardInterrupt`, `MaxRetryExceedError`, `requests.exceptions.RequestException`,
`ReWriteRequiredError`, `ValueError`, `ZeroDivisionError`, `StopIteration`,
and a catch-all for any other `Exception`. -/
inductive Exc where
  | keyboardInterrupt
  | maxRetryExceed (retries : Nat)
  | requestException (msg : String)
  | rewriteRequired (msg : String)
  | valueError (msg : String)
  | zeroDivisionError
  | stopIteration
  | typeError (msg : String)
  | other (msg : String)
  deriving DecidableEq, Repr

/-- Decidable test used where Python checks an `Except` for success. -/
def excOk {α : Type} : Except Exc α → Bool
  | .ok _ => true
  | .error _ => false

/-- DownloaderState enum from `downloader.py` (NOT_STARTED .. CANCELLED). -/
inductive DownloaderState where
  | notStarted
  | started
  | finished
  | failed
  | paused
  | cancelled
  deriving DecidableEq, Repr

/-! ## LinerTask (`downloader.py`, class `LinerTask`)

A `LinerTask` wraps a function plus either fixed arguments or late-bound
argument providers.  The wrapped function may read an ambient state `σ`
(the shared mutable objects earlier pipeline tasks can modify); calling it
may raise.  Positional args and keyword args are modelled by two payload
types `α` and `κ`. -/

structure LinerTask (σ α κ β : Type) where
  fn : α → κ → Except Exc β
  task_name : String
  args : α
  kwargs : κ
  delay_args : Option (σ → α)
  delay_kwargs : Option (σ → κ)
  delay : Bool
  finished : Bool

/-- `LinerTask.__init__`: stores `fn`, the fixed `args`/`kwargs`, the delay
providers, sets `delay = any((delay_args, delay_kwargs))` and, via
`BaseTask.__init__`, `_finished = False`. -/
def LinerTask.init {σ α κ β : Type} (fn : α → κ → Except Exc β) (name : String)
    (args : α) (kwargs : κ) (delay_args : Option (σ → α))
    (delay_kwargs : Option (σ → κ)) : LinerTask σ α κ β :=
  { fn := fn
    task_name := name
    args := args
    kwargs := kwargs
    delay_args := delay_args
    delay_kwargs := delay_kwargs
    delay := delay_args.isSome || delay_kwargs.isSome
    finished := false }

/-- The positional arguments in effect when `start` runs: under `delay`,
`if callable(self.delay_args): self.args = self.delay_args()` invokes the
provider on the current ambient state. -/
def LinerTask.argsAtStart {σ α κ β : Type} (t : LinerTask σ α κ β) (s : σ) : α :=
  if t.delay then
    match t.delay_args with
    | some p => p s
    | none => t.args
  else t.args

/-- The keyword arguments in effect when `start` runs (same shape as
`argsAtStart`). -/
def LinerTask.kwargsAtStart {σ α κ β : Type} (t : LinerTask σ α κ β) (s : σ) : κ :=
  if t.delay then
    match t.delay_kwargs with
    | some p => p s
    | none => t.kwargs
  else t.kwargs

/-- Value of one argument slot under late binding: the provider applied to
the current state when one was given, the construction-time value
otherwise. -/
def lateBound {σ γ : Type} (provider : Option (σ → γ)) (v : γ) (s : σ) : γ :=
  match provider with
  | some p => p s
  | none => v

/-- `LinerTask.start`: when `delay` holds, the providers are invoked now (on
the current ambient state `s`) and overwrite `self.args` / `self.kwargs`;
then `ret = self.fn(*args, **kwargs)` runs, and only after a normal return
does `self._finished = True` execute.  When `fn` raises, the assignment to
`_finished` is never reached and the exception propagates. -/
def LinerTask.start {σ α κ β : Type} (t : LinerTask σ α κ β) (s : σ) :
    LinerTask σ α κ β × Except Exc β :=
  let t1 := { t with args := t.argsAtStart s, kwargs := t.kwargsAtStart s }
  match t1.fn t1.args t1.kwargs with
  | .ok r => ({ t1 with finished := true }, .ok r)
  | .error e => (t1, .error e)

/-! ## retry decorator (`utils/decorator.py`)

`retry(max_retries, interval, step)` wraps a function; the wrapped call
tries `func` at attempts `0 .. max_retries`.  A `KeyboardInterrupt`
propagates at once; any other exception on the last attempt raises
`MaxRetryExceedError(max_retries)`, and otherwise the loop sleeps
`pause_time` (which starts at `interval` and grows by `step` after each
failed attempt) and retries.  `f attempt` gives the outcome of invoking the
wrapped function on that attempt; the model returns the list of sleep
durations performed together with the final result. -/

def retryAux {α : Type} (f : Nat → Except Exc α) (maxRetries step : Nat) :
    Nat → Nat → Nat → List Nat × Except Exc α
  | _attempt, _pause, 0 =>
    ([], .error (.other "unreachable"))
  | attempt, pause, fuel + 1 =>
    match f attempt with
    | .ok a => ([], .ok a)
    | .error e =>
      if e = .keyboardInterrupt then ([], .error .keyboardInterrupt)
      else if attempt == maxRetries then
        ([], .error (.maxRetryExceed maxRetries))
      else
        let rest := retryAux f maxRetries step (attempt + 1) (pause + step) fuel
        (pause :: rest.1, rest.2)

/-- The `inner` closure produced by `retry`: attempts start at 0 with
`pause_time = interval`; the loop body runs `max_retries + 1` times at most. -/
def retryRun {α : Type} (f : Nat → Except Exc α) (maxRetries interval step : Nat) :
    List Nat × Except Exc α :=
  retryAux f maxRetries step 0 interval (maxRetries + 1)

/-- Client-level retry overrides (`HttpClient.retry_settings`); in
`HttpClient.request` each of them takes precedence over the per-call
argument via `self.retry_settings.get(key, per_call_value)`. -/
structure RetryOverrides where
  max_retries : Option Nat
  retry_interval : Option Nat
  retry_step : Option Nat

/-- `HttpClient.request`: the `_request` closure (session request +
`raise_for_status`, abstracted as `f`) is wrapped by `retry` with the
effective parameters chosen from `retry_settings` falling back to the
per-call arguments. -/
def HttpClient.requestRun {α : Type} (rs : RetryOverrides)
    (max_retries retry_interval retry_step : Nat)
    (f : Nat → Except Exc α) : List Nat × Except Exc α :=
  retryRun f (rs.max_retries.getD max_retries)
    (rs.retry_interval.getD retry_interval)
    (rs.retry_step.getD retry_step)

/-! ## Media (`core/media.py`) and the DownloadTask transfer generator -/

/-- Media descriptor: the resolved primary url (`Media.url`) plus the ordered
backup urls.  The `backup_url` attribute and the `urls` property referenced
by `DownloadTask.request` and by `tests/test_media.py` are absent from the
copy of `media.py` in the tree, so `urls` is modelled from the spec below. -/
structure Media where
  url : String
  backup_url : List String
  name : String := "NAME NOT SET"

/-- Modelled from the spec: the `Media.urls` property is missing from
`core/media.py` in the tree (its tests and `DownloadTask.request` reference
it); per the spec, the ordered candidate URL list is
`[primaryUrl] + backupUrls`. -/
def Media.urls (m : Media) : List String := m.url :: m.backup_url

/-- Behavior of the network for one URL, as observed through
`HttpClient.request` + `Response.iter_content`:
* `connectFail` — the connection-time request fails every retry, so
  `client.request` raises `MaxRetryExceedError`;
* `ok cl chunks` — the streaming request succeeds, `Content-Length` is
  `cl` (absent when `none`), and iterating the content yields `chunks`;
* `midStreamFail cl pre msg` — the request succeeds and yields the chunks
  `pre`, then `iter_content` raises a `requests.RequestException`. -/
inductive UrlBehavior where
  | connectFail
  | ok (contentLength : Option Nat) (chunks : List (List Nat))
  | midStreamFail (contentLength : Option Nat) (pre : List (List Nat)) (msg : String)
  deriving DecidableEq, Repr

/-- One value yielded by the `request`/`write`/`start` generators: either the
total size (yielded once, when `_total_size` was still `None`) or a chunk. -/
inductive Yield where
  | size (n : Nat)
  | chunk (c : List Nat)
  deriving DecidableEq, Repr

/-- Chunk payload of a yield, if it is a chunk. -/
def Yield.chunkData : Yield → Option (List Nat)
  | .size _ => none
  | .chunk c => some c

instance {ε α : Type} [DecidableEq ε] [DecidableEq α] :
    DecidableEq (Except ε α) := fun x y =>
  match x, y with
  | .ok a, .ok b =>
    if h : a = b then .isTrue (by rw [h])
    else .isFalse (by intro hh; cases hh; exact h rfl)
  | .ok _, .error _ => .isFalse (by intro h; cases h)
  | .error _, .ok _ => .isFalse (by intro h; cases h)
  | .error e, .error f =>
    if h : e = f then .isTrue (by rw [h])
    else .isFalse (by intro hh; cases hh; exact h rfl)

/-- Trace of a full run of the `DownloadTask.request` generator. -/
structure RequestTrace where
  contacted : List String
  yields : List Yield
  total_size : Option Nat
  outcome : Except Exc Unit
  deriving DecidableEq, Repr

/-- Yields produced once a response is open: if `self._total_size` is still
`None` it is set to `int(headers.get("Content-Length", 0))` and yielded,
then every chunk of the body is yielded. -/
def responseYields (ts : Option Nat) (cl : Option Nat) (chunks : List (List Nat)) :
    List Yield × Option Nat :=
  match ts with
  | none =>
    let n := cl.getD 0
    (Yield.size n :: chunks.map Yield.chunk, some n)
  | some n => (chunks.map Yield.chunk, some n)

/-- The `for url in self.media.urls` loop of `DownloadTask.request`, run to
completion.  `net` gives the behavior of each URL; `ts` is the incoming
value of `self._total_size`.  A `MaxRetryExceedError` from `client.request`
is caught and the next URL is tried; a `RequestException` from
`iter_content` raises `ReWriteRequiredError`; a successful body sets
`ok = True` and breaks; if the loop ends without `ok`, `ValueError("All
urls failed.")` is raised. -/
def requestLoop (net : String → UrlBehavior) :
    List String → Option Nat → RequestTrace
  | [], ts =>
    { contacted := [], yields := [], total_size := ts
      outcome := .error (.valueError "All urls failed.") }
  | url :: rest, ts =>
    match net url with
    | .connectFail =>
      let r := requestLoop net rest ts
      { r with contacted := url :: r.contacted }
    | .ok cl chunks =>
      let (ys, ts') := responseYields ts cl chunks
      { contacted := [url], yields := ys, total_size := ts', outcome := .ok () }
    | .midStreamFail cl pre msg =>
      let (ys, ts') := responseYields ts cl pre
      { contacted := [url], yields := ys, total_size := ts'
        outcome := .error (.rewriteRequired msg) }

/-- `DownloadTask.request` on a media descriptor. -/
def DownloadTask.request (net : String → UrlBehavior) (m : Media)
    (ts : Option Nat) : RequestTrace :=
  requestLoop net m.urls ts

/-- Trace of a full run of the `DownloadTask.write` generator: `file` is the
sequence of chunks written to `self.output_file` (opened with mode `"wb"`,
truncating any prior content). -/
structure WriteTrace where
  file : List (List Nat)
  yields : List Yield
  total_size : Option Nat
  outcome : Except Exc Unit
  deriving DecidableEq, Repr

/-- `DownloadTask.write`: opens the output file (`"wb"`), pulls
`total_size = next(generator)` — whatever the first yielded value is — and
yields it, then writes each further yielded value to the file and re-yields
it.  If the request generator raises before its first yield, that exception
propagates out of the `next` call; if it is exhausted with no yields,
`next` raises `StopIteration`. -/
def DownloadTask.write (net : String → UrlBehavior) (m : Media)
    (ts : Option Nat) : WriteTrace :=
  let r := DownloadTask.request net m ts
  match r.yields with
  | [] =>
    { file := [], yields := [], total_size := r.total_size
      outcome := match r.outcome with
        | .ok _ => .error .stopIteration
        | .error e => .error e }
  | y :: rest =>
    { file := rest.filterMap Yield.chunkData
      yields := y :: rest
      total_size := r.total_size
      outcome := r.outcome }

/-- Trace of a full run of `DownloadTask.start`.  `clientGen` counts how
many fresh sessions were created by `self.client = self.client.new()`
(0 = the original session only). -/
structure StartTrace where
  file : List (List Nat)
  yields : List Yield
  total_size : Option Nat
  finished : Bool
  clientGen : Nat
  outcome : Except Exc Unit
  deriving DecidableEq, Repr

/-- `DownloadTask.start`: `yield from self.write()`; on
`ReWriteRequiredError` a fresh client session is created and `write` is
re-invoked once (`self._total_size` keeps the value set by the first
attempt); the second `open(.., "wb")` truncates the file, so only the
second attempt's chunks remain on disk.  `self._finished = True` runs only
when no exception escapes.  `net g` is the network as seen through client
generation `g`. -/
def DownloadTask.start (net : Nat → String → UrlBehavior) (m : Media) :
    StartTrace :=
  let w1 := DownloadTask.write (net 0) m none
  match w1.outcome with
  | .ok _ =>
    { file := w1.file, yields := w1.yields, total_size := w1.total_size
      finished := true, clientGen := 0, outcome := .ok () }
  | .error (.rewriteRequired _) =>
    let w2 := DownloadTask.write (net 1) m w1.total_size
    { file := w2.file
      yields := w1.yields ++ w2.yields
      total_size := w2.total_size
      finished := excOk w2.outcome
      clientGen := 1
      outcome := w2.outcome }
  | .error e =>
    { file := w1.file, yields := w1.yields, total_size := w1.total_size
      finished := false, clientGen := 0, outcome := .error e }

/-! ## BaseDownloader.run_download_task (`downloader.py`) -/

/-- Python's `/` on numbers: raises `ZeroDivisionError` for a zero divisor. -/
def pyDiv (a b : Nat) : Except Exc ℚ :=
  if b = 0 then .error .zeroDivisionError
  else .ok ((a : ℚ) / (b : ℚ))

/-- One iteration of the logging loop of `run_download_task`: computes
`len(chunk) / total_size * 100` where `total_size` is whatever value
`next(generator)` returned (dividing by a bytes chunk is a `TypeError`). -/
def logPercent (c : List Nat) (total : Yield) : Except Exc ℚ :=
  match total with
  | .size n => (pyDiv c.length n).map (· * 100)
  | .chunk _ => .error (.typeError "unsupported operand type(s) for /")

/-- Incremental view of the `write` generator after its first yield: each
later yield is paired with the output-file content at the moment it is
handed to the consumer.  `write` performs `f.write(chunk)` *before*
`yield chunk`, so a chunk yield carries the file already extended with that
chunk; `file` is the content written so far. -/
def writeEventsGo (file : List (List Nat)) :
    List Yield → List (Yield × List (List Nat))
  | [] => []
  | .size n :: rest => (.size n, file) :: writeEventsGo file rest
  | .chunk c :: rest =>
    (.chunk c, file ++ [c]) :: writeEventsGo (file ++ [c]) rest

/-- Incremental view of one `write` attempt: the file is opened with
`"wb"` (truncated to empty), the first yield (`total_size = next(...)`)
writes nothing, and every later yield is written before being yielded. -/
def writeEvents : List Yield → List (Yield × List (List Nat))
  | [] => []
  | y :: rest => (y, []) :: writeEventsGo [] rest

/-- The `start` generator as the consumer observes it step by step: its
yields each paired with the output-file content at that suspension point
(the second attempt after a `ReWriteRequiredError` re-opens the file,
truncating it), `finished` as it would be after the consumer pulls past
the last yield, and the exception surfacing at that final pull, if any. -/
structure StartEvents where
  events : List (Yield × List (List Nat))
  finished : Bool
  outcome : Except Exc Unit
  deriving DecidableEq, Repr

/-- Event-level version of `DownloadTask.start` (same attempt structure as
`DownloadTask.start`, keeping the intermediate file states). -/
def DownloadTask.startEvents (net : Nat → String → UrlBehavior) (m : Media) :
    StartEvents :=
  let w1 := DownloadTask.write (net 0) m none
  match w1.outcome with
  | .ok _ =>
    { events := writeEvents w1.yields, finished := true, outcome := .ok () }
  | .error (.rewriteRequired _) =>
    let w2 := DownloadTask.write (net 1) m w1.total_size
    { events := writeEvents w1.yields ++ writeEvents w2.yields
      finished := excOk w2.outcome
      outcome := w2.outcome }
  | .error e =>
    { events := writeEvents w1.yields, finished := false
      outcome := .error e }

/-- Observable result of `run_download_task`: the exception it raises (or
normal return), the output-file content at the moment it returns or
raises, and the task's `finished` flag at that moment. -/
structure DriveResult where
  outcome : Except Exc Unit
  file : List (List Nat)
  finished : Bool
  deriving DecidableEq, Repr

/-- The `for chunk in generator` loop of `run_download_task`, driven
lazily: each pulled chunk is logged as `len(chunk) / total_size * 100`;
the first failing log aborts the loop, abandoning the generator with the
file as it stood at that yield (later chunks are never fetched); with no
failure the loop consumes every yield and returns the final file. -/
def driveChunks (total : Yield) :
    List (Yield × List (List Nat)) → List (List Nat) →
    Except (Exc × List (List Nat)) (List (List Nat))
  | [], file => .ok file
  | (.chunk c, fileAfter) :: rest, _ =>
    match logPercent c total with
    | .error e => .error (e, fileAfter)
    | .ok _ => driveChunks total rest fileAfter
  | (.size _, fileAfter) :: _, _ =>
    .error (.typeError "object of type int has no len()", fileAfter)

/-- `BaseDownloader.run_download_task`: `total_size = next(generator)` —
the first yield, whatever it is (raising the generator's exception, or
`StopIteration` on an empty exhausted generator) — then the logging loop
over the later yields; a log failure abandons the generator mid-stream
(the task never finishes and no further bytes are written), while a full
drive surfaces the generator's own outcome after the last yield. -/
def BaseDownloader.run_download_task (net : Nat → String → UrlBehavior)
    (m : Media) : DriveResult :=
  let st := DownloadTask.startEvents net m
  match st.events with
  | [] =>
    { outcome := match st.outcome with
        | .ok _ => .error .stopIteration
        | .error e => .error e
      file := [], finished := false }
  | (y0, f0) :: rest =>
    match driveChunks y0 rest f0 with
    | .error (e, file) => { outcome := .error e, file := file, finished := false }
    | .ok file =>
      match st.outcome with
      | .ok _ => { outcome := .ok (), file := file, finished := st.finished }
      | .error e => { outcome := .error e, file := file, finished := false }

/-! ## BaseDownloader.download and the batch coordinator (`downloader.py`)

A pipeline task is abstracted to its display name and the outcome of its
`start()` call; an item downloader is its prepared pipeline plus the state
fields `BaseDownloader.__init__` sets. -/

/-- One sequential pipeline task, as seen by `run_tasks`: a name and what
`task.start()` does when invoked. -/
structure PTask where
  task_name : String
  result : Except Exc Unit
  deriving DecidableEq, Repr

/-- An item downloader after construction: prepared tasks, plus the state
fields initialised by `BaseDownloader.__init__`
(`state = NOT_STARTED`, `exc_info = (NOT_SET, NOT_SET)`). -/
structure ItemDownloader where
  tasks : List PTask
  state : DownloaderState := .notStarted
  exc_info : Option (Exc × String) := none
  deriving DecidableEq, Repr

/-- Model of `traceback.format_exc()` for a caught exception. -/
def format_exc (e : Exc) : String :=
  "Traceback (most recent call last): " ++ reprStr e

/-- `BaseDownloader.run_tasks`, run to completion by a driver: starts each
task in order, yielding it after its `start()` returns; the first raising
task aborts the loop with its exception.  Returns the names of the tasks
whose `start()` was invoked and the loop's outcome. -/
def BaseDownloader.run_tasks : List PTask → List String × Except Exc Unit
  | [] => ([], .ok ())
  | t :: rest =>
    match t.result with
    | .error e => ([t.task_name], .error e)
    | .ok _ =>
      let r := BaseDownloader.run_tasks rest
      (t.task_name :: r.1, r.2)

/-- Result of driving the `BaseDownloader.download` generator to its end:
final state, recorded `exc_info`, the names of the tasks that executed, how
many error entries were logged, and the exception re-raised to the caller
(only ever a `KeyboardInterrupt`). -/
structure DownloadDrive where
  state : DownloaderState
  exc_info : Option (Exc × String)
  executed : List String
  errorLogs : Nat
  raised : Option Exc
  deriving DecidableEq, Repr

/-- The `download()` generator object itself.  In Python, calling a
generator function only instantiates the generator: none of the body runs
until the generator is iterated. -/
structure DownloadGen where
  downloader : ItemDownloader
  deriving DecidableEq, Repr

/-- `downloader.download()` — generator instantiation; runs no body code. -/
def BaseDownloader.download (d : ItemDownloader) : DownloadGen :=
  { downloader := d }

/-- Iterating the `download()` generator to exhaustion: sets
`state = STARTED`, runs the tasks in order; a `KeyboardInterrupt`
re-raises; any other exception sets `state = FAILED`, records
`(e, format_exc())` in `exc_info` and logs one error entry; otherwise
`state = FINISHED`.  (The `finally` block saves the console transcript and
calls `after_download` in every case.) -/
def DownloadGen.consume (g : DownloadGen) : DownloadDrive :=
  let r := BaseDownloader.run_tasks g.downloader.tasks
  match r.2 with
  | .ok _ =>
    { state := .finished, exc_info := g.downloader.exc_info
      executed := r.1, errorLogs := 0, raised := none }
  | .error e =>
    if e = .keyboardInterrupt then
      { state := .started, exc_info := g.downloader.exc_info
        executed := r.1, errorLogs := 0, raised := some .keyboardInterrupt }
    else
      { state := .failed, exc_info := some (e, format_exc e)
        executed := r.1, errorLogs := 1, raised := none }

/-! ### Direct execution mode (`from_cli = False`) -/

/-- `BaseBatchDownloader.run_downloader`: calls `downloader.download()` —
which only instantiates the generator, never iterated here — and then
`clean_downloader_save_dir`, which removes the downloader's save directory
when `remove_downloader_save_dir` is set.  Returns the downloader's state
after the call and whether its save directory was removed. -/
def BaseBatchDownloader.run_downloader (remove_downloader_save_dir : Bool)
    (d : ItemDownloader) : DownloaderState × Bool :=
  let _gen := BaseDownloader.download d
  (d.state, remove_downloader_save_dir)

/-- `BaseBatchDownloader.run_downloaders_directly`: submits
`run_downloader` for every downloader to a `ThreadPoolExecutor` bounded by
`max_workers` and waits for all futures (`handle_downloader_futures`);
since every pool task runs to completion independently, the batch outcome
is the list of per-item results. -/
def BaseBatchDownloader.run_downloaders_directly
    (remove_downloader_save_dir : Bool) (ds : List ItemDownloader) :
    List (DownloaderState × Bool) :=
  ds.map (BaseBatchDownloader.run_downloader remove_downloader_save_dir)

/-! ### Progress execution mode (`from_cli = True`) -/

/-- The batch coordinator flags that govern artifact relocation
(`BaseBatchDownloader.__init__` defaults them all to `True`). -/
structure BatchFlags where
  remove_downloader_save_dir : Bool := true
  move_output_file_to_parent_dir : Bool := true
  move_log_file_to_log_dir : Bool := true
  deriving DecidableEq, Repr

/-- Per-item effects of `BaseBatchDownloader.update_downloader_progress`. -/
structure ItemProgress where
  finalState : DownloaderState
  countedSuccess : Bool
  countedFailed : Bool
  movedLogFile : Bool
  movedOutputFile : Bool
  cleanedSaveDir : Bool
  raised : Option Exc
  deriving DecidableEq, Repr

/-- `BaseBatchDownloader.update_downloader_progress`: drives
`downloader.download()` step by step.  A `KeyboardInterrupt` re-raises,
but the `finally` block still runs first — the state is `STARTED`, not
`FAILED`, so the success branch executes (counts a success, relocates the
log and output files per the flags, cleans the save directory) before the
exception propagates.  Otherwise: a `FAILED` downloader increments
`failed_count` and nothing is relocated; any other final state increments
`success_count`, relocates the log file into the batch log directory and
the output file into the batch save directory when the corresponding flags
are set, and then cleans the downloader's save directory. -/
def BaseBatchDownloader.update_downloader_progress (fl : BatchFlags)
    (d : ItemDownloader) : ItemProgress :=
  let r := (BaseDownloader.download d).consume
  match r.raised with
  | some e =>
    { finalState := r.state
      countedSuccess := true, countedFailed := false
      movedLogFile := fl.move_log_file_to_log_dir
      movedOutputFile := fl.move_output_file_to_parent_dir
      cleanedSaveDir := fl.remove_downloader_save_dir
      raised := some e }
  | none =>
    if r.state = .failed then
      { finalState := r.state
        countedSuccess := false, countedFailed := true
        movedLogFile := false, movedOutputFile := false
        cleanedSaveDir := false, raised := none }
    else
      { finalState := r.state
        countedSuccess := true, countedFailed := false
        movedLogFile := fl.move_log_file_to_log_dir
        movedOutputFile := fl.move_output_file_to_parent_dir
        cleanedSaveDir := fl.remove_downloader_save_dir
        raised := none }

/-- The batch run over the downloaders in progress mode, threading the
`success_count` / `failed_count` counters (`__init__` starts both at 0);
a re-raised `KeyboardInterrupt` aborts the remaining items. -/
def runBatchProgress (fl : BatchFlags) :
    List ItemDownloader → Nat → Nat → Nat × Nat × Option Exc
  | [], s, f => (s, f, none)
  | d :: rest, s, f =>
    let r := BaseBatchDownloader.update_downloader_progress fl d
    let s' := if r.countedSuccess then s + 1 else s
    let f' := if r.countedFailed then f + 1 else f
    match r.raised with
    | some e => (s', f', some e)
    | none => runBatchProgress fl rest s' f'

/-- Counter pair after a progress-mode batch run over `ds`. -/
def batchCounts (fl : BatchFlags) (ds : List ItemDownloader) :
    Nat × Nat × Option Exc :=
  runBatchProgress fl ds 0 0

/-! ## Theorems -/

/-- After `start`, a task's `finished` flag is true exactly when the wrapped
function returned normally; on an exception it keeps its previous value. -/
theorem LinerTask.start_finished {σ α κ β : Type} (t : LinerTask σ α κ β)
    (s : σ) :
    ((t.start s).1.finished = (excOk (t.start s).2 || t.finished)) := by
  unfold LinerTask.start
  dsimp only
  split <;> simp [excOk]

/-- The result of `start` is the wrapped function applied to the effective
arguments. -/
theorem LinerTask.start_snd {σ α κ β : Type} (t : LinerTask σ α κ β) (s : σ) :
    (t.start s).2 = t.fn (t.argsAtStart s) (t.kwargsAtStart s) := by
  unfold LinerTask.start
  dsimp only
  split <;> simp_all

/-- C3: the claim that `finished` is true after `start()` unconditionally —
including when the wrapped function raises — is false: for a task whose
function raises, `finished` is still false after `start()`, because
`self._finished = True` sits after the call to `self.fn` and the exception
propagates first. -/
theorem c3_counterexample :
    let t : LinerTask Unit Unit Unit Unit :=
      LinerTask.init (fun _ _ => .error (.other "boom")) "boom-task" () ()
        none none
    t.finished = false ∧
      (t.start ()).1.finished = false ∧
      (t.start ()).2 = .error (.other "boom") := by
  exact ⟨rfl, rfl, rfl⟩

/-- C3 (amended): for every `LinerTask`, `finished` is false before
`start()`; after `start()` it is true exactly when the wrapped function
returned normally, and when the function raises, the exception propagates
and `finished` remains false. -/
theorem c3_liner_task_finished {σ α κ β : Type} (fn : α → κ → Except Exc β)
    (nm : String) (a : α) (k : κ) (da : Option (σ → α))
    (dk : Option (σ → κ)) (s : σ) :
    (LinerTask.init fn nm a k da dk).finished = false ∧
      ((LinerTask.init fn nm a k da dk).start s).1.finished
        = excOk ((LinerTask.init fn nm a k da dk).start s).2 := by
  refine ⟨rfl, ?_⟩
  rw [LinerTask.start_finished,
    show (LinerTask.init fn nm a k da dk).finished = false from rfl,
    Bool.or_false]

/-- C8: for a `LinerTask` constructed with a `delay_args` or a
`delay_kwargs` provider (either one, or both), the providers run at
`start()` time on the then-current state: whatever mutation `m` was
applied to the state after construction, the wrapped function is invoked
on the provider values of the mutated state (arguments without a provider
keep their construction-time value), and the task's recorded
`args`/`kwargs` are the late-bound ones. -/
theorem c8_late_binding {σ α κ β : Type} (fn : α → κ → Except Exc β)
    (nm : String) (a : α) (k : κ) (da : Option (σ → α))
    (dk : Option (σ → κ)) (s : σ) (m : σ → σ)
    (h : da.isSome = true ∨ dk.isSome = true) :
    ((LinerTask.init fn nm a k da dk).start (m s)).2
        = fn (lateBound da a (m s)) (lateBound dk k (m s))
    ∧ ((LinerTask.init fn nm a k da dk).start (m s)).1.args
        = lateBound da a (m s)
    ∧ ((LinerTask.init fn nm a k da dk).start (m s)).1.kwargs
        = lateBound dk k (m s) := by
  cases da with
  | none =>
    cases dk with
    | none => simp at h
    | some q =>
      refine ⟨?_, ?_, ?_⟩
      · rw [LinerTask.start_snd]
        rfl
      · unfold LinerTask.start
        dsimp only
        split <;> rfl
      · unfold LinerTask.start
        dsimp only
        split <;> rfl
  | some p =>
    refine ⟨?_, ?_, ?_⟩
    · rw [LinerTask.start_snd]
      cases dk <;> rfl
    · unfold LinerTask.start
      dsimp only
      split <;> cases dk <;> rfl
    · unfold LinerTask.start
      dsimp only
      split <;> cases dk <;> rfl

/-- C8 witness: a task with only a `delay_kwargs` provider (and fixed
positional args); mutating the state from 3 to 6 after construction is
reflected in the keyword argument actually passed (`6 + 1 = 7`). -/
theorem c8_late_binding_witness :
    ((LinerTask.init
        (fun (x : Nat) (y : Nat) => (.ok (x, y) : Except Exc (Nat × Nat)))
        "kwargs-task" 0 0 none (some (fun n => n + 1))).start
      ((fun n => n * 2) 3)).2 = .ok (0, 7) := by
  have h := c8_late_binding
    (fun (x : Nat) (y : Nat) => (.ok (x, y) : Except Exc (Nat × Nat)))
    "kwargs-task" 0 0 none (some (fun n => n + 1)) 3 (fun n => n * 2)
    (Or.inr rfl)
  exact h.1.trans (by decide)

/-- Unfolding step of `retryAux` on a successful attempt. -/
theorem retryAux_ok {α : Type} (f : Nat → Except Exc α) (R S : Nat)
    (attempt pause fuel : Nat) (v : α) (h : f attempt = .ok v) :
    retryAux f R S attempt pause (fuel + 1) = ([], .ok v) := by
  unfold retryAux
  rw [h]

/-- Unfolding step of `retryAux` on a failed attempt (not an interrupt). -/
theorem retryAux_error {α : Type} (f : Nat → Except Exc α) (R S : Nat)
    (attempt pause fuel : Nat) (e : Exc) (h : f attempt = .error e)
    (hne : e ≠ .keyboardInterrupt) :
    retryAux f R S attempt pause (fuel + 1)
      = if attempt == R then ([], .error (.maxRetryExceed R))
        else (pause :: (retryAux f R S (attempt + 1) (pause + S) fuel).1,
          (retryAux f R S (attempt + 1) (pause + S) fuel).2) := by
  conv_lhs => rw [retryAux]
  rw [h]
  dsimp only
  rw [if_neg hne]

/-- When every attempt up to the retry budget fails (with no interrupt),
the loop sleeps `pause, pause + S, ...` and ends in `MaxRetryExceedError`. -/
theorem retryAux_allFail {α : Type} (f : Nat → Except Exc α) (S : Nat) :
    ∀ (n attempt pause : Nat),
      (∀ i, attempt ≤ i → i ≤ attempt + n →
        ∃ e, f i = .error e ∧ e ≠ .keyboardInterrupt) →
      retryAux f (attempt + n) S attempt pause (n + 1)
        = ((List.range n).map (fun i => pause + i * S),
            .error (.maxRetryExceed (attempt + n))) := by
  intro n
  induction n with
  | zero =>
    intro attempt pause h
    obtain ⟨e, he, hne⟩ := h attempt le_rfl (by omega)
    rw [retryAux_error f (attempt + 0) S attempt pause 0 e he hne]
    simp
  | succ n ih =>
    intro attempt pause h
    obtain ⟨e, he, hne⟩ := h attempt le_rfl (by omega)
    rw [retryAux_error f (attempt + (n + 1)) S attempt pause (n + 1) e he hne]
    have hbeq : (attempt == attempt + (n + 1)) = false := by
      simp only [beq_eq_false_iff_ne, ne_eq]
      omega
    rw [hbeq]
    simp only [Bool.false_eq_true, if_false]
    have harg : attempt + (n + 1) = (attempt + 1) + n := by omega
    rw [harg]
    rw [ih (attempt + 1) (pause + S)
      (fun i h1 h2 => h i (by omega) (by omega))]
    refine congrArg₂ Prod.mk ?_ rfl
    rw [List.range_succ_eq_map, List.map_cons, List.map_map]
    refine congrArg₂ List.cons (by ring) ?_
    apply List.map_congr_left
    intro a _
    simp only [Function.comp_apply, Nat.succ_eq_add_one]
    ring

/-- When the first `j` attempts fail (no interrupt) and attempt `j` — still
within the budget — succeeds, the loop sleeps `j` growing intervals and
returns the first successful result. -/
theorem retryAux_firstSuccess {α : Type} (f : Nat → Except Exc α) (R S : Nat) :
    ∀ (j n attempt pause : Nat) (v : α), j ≤ n → attempt + j ≤ R →
      (∀ i, attempt ≤ i → i < attempt + j →
        ∃ e, f i = .error e ∧ e ≠ .keyboardInterrupt) →
      f (attempt + j) = .ok v →
      retryAux f R S attempt pause (n + 1)
        = ((List.range j).map (fun i => pause + i * S), .ok v) := by
  intro j
  induction j with
  | zero =>
    intro n attempt pause v _ _ _ hok
    rw [retryAux_ok f R S attempt pause n v (by simpa using hok)]
    simp
  | succ j ih =>
    intro n attempt pause v hjn hjR h hok
    obtain ⟨n, rfl⟩ : ∃ m, n = m + 1 := ⟨n - 1, by omega⟩
    obtain ⟨e, he, hne⟩ := h attempt le_rfl (by omega)
    rw [retryAux_error f R S attempt pause (n + 1) e he hne]
    have hbeq : (attempt == R) = false := by
      simp only [beq_eq_false_iff_ne, ne_eq]
      omega
    rw [hbeq]
    simp only [Bool.false_eq_true, if_false]
    rw [ih n (attempt + 1) (pause + S) v (by omega) (by omega)
      (fun i h1 h2 => h i (by omega) (by omega))
      (by rw [show attempt + 1 + j = attempt + (j + 1) by omega]; exact hok)]
    refine congrArg₂ Prod.mk ?_ rfl
    rw [List.range_succ_eq_map, List.map_cons, List.map_map]
    refine congrArg₂ List.cons (by ring) ?_
    apply List.map_congr_left
    intro a _
    simp only [Function.comp_apply, Nat.succ_eq_add_one]
    ring

/-- C9: through `HttpClient.request`, a connection-time failure is retried
up to the effective maximum retry count (client overrides falling back to
the per-call values); the sleeps between consecutive attempts are
`interval, interval + step, interval + 2*step, ...`; exhausting the budget
raises `MaxRetryExceedError`, and otherwise the first successful response
is returned. -/
theorem c9_retry_policy {α : Type} (rs : RetryOverrides)
    (mr iv sp : Nat) (f : Nat → Except Exc α) :
    ((∀ i, i ≤ rs.max_retries.getD mr →
        ∃ e, f i = .error e ∧ e ≠ .keyboardInterrupt) →
      HttpClient.requestRun rs mr iv sp f
        = ((List.range (rs.max_retries.getD mr)).map
            (fun i => rs.retry_interval.getD iv + i * rs.retry_step.getD sp),
          .error (.maxRetryExceed (rs.max_retries.getD mr)))) ∧
    (∀ j v, j ≤ rs.max_retries.getD mr →
      (∀ i, i < j → ∃ e, f i = .error e ∧ e ≠ .keyboardInterrupt) →
      f j = .ok v →
      HttpClient.requestRun rs mr iv sp f
        = ((List.range j).map
            (fun i => rs.retry_interval.getD iv + i * rs.retry_step.getD sp),
          .ok v)) := by
  constructor
  · intro h
    unfold HttpClient.requestRun retryRun
    have := retryAux_allFail f (rs.retry_step.getD sp)
      (rs.max_retries.getD mr) 0 (rs.retry_interval.getD iv)
      (fun i h1 h2 => h i (by omega))
    simpa using this
  · intro j v hj hfail hok
    unfold HttpClient.requestRun retryRun
    have := retryAux_firstSuccess f (rs.max_retries.getD mr)
      (rs.retry_step.getD sp) j (rs.max_retries.getD mr) 0
      (rs.retry_interval.getD iv) v hj (by omega)
      (fun i h1 h2 => hfail i (by omega)) (by simpa using hok)
    simpa using this

/-- C9 witness: with no client overrides, `max_retries = 2`, `interval = 5`,
`step = 3`, a function that always fails sleeps `[5, 8]` and raises
`MaxRetryExceedError(2)`; with client overrides `(1, 7, 2)` a function
succeeding on attempt 1 sleeps `[7]` and returns its result. -/
theorem c9_retry_policy_witness :
    HttpClient.requestRun ⟨none, none, none⟩ 2 5 3
        (fun _ => (.error (.requestException "boom") : Except Exc Unit))
      = ([5, 8], .error (.maxRetryExceed 2)) ∧
    HttpClient.requestRun ⟨some 1, some 7, some 2⟩ 9 9 9
        (fun i => if i = 1 then (.ok 42 : Except Exc Nat)
          else .error (.requestException "boom"))
      = ([7], .ok 42) := by
  constructor
  · exact ((c9_retry_policy ⟨none, none, none⟩ 2 5 3 _).1
      (fun i _ => ⟨.requestException "boom", rfl, by decide⟩)).trans (by decide)
  · exact ((c9_retry_policy ⟨some 1, some 7, some 2⟩ 9 9 9 _).2 1 42
      (by decide)
      (fun i hi => ⟨.requestException "boom", by
        interval_cases i
        · rfl, by decide⟩)
      (by decide)).trans (by decide)

/-- The URL trace of the `request` loop: the leading run of candidates
whose connections fail (each exhausting its retry budget) followed by the
first candidate that answers, if any, and nothing after it. -/
theorem requestLoop_contacted (net : String → UrlBehavior) :
    ∀ (us : List String) (ts : Option Nat),
      (requestLoop net us ts).contacted
        = us.takeWhile (fun u => net u == .connectFail)
          ++ (us.drop
              (us.takeWhile (fun u => net u == .connectFail)).length).take 1
  | [], _ => rfl
  | u :: rest, ts => by
    cases hu : net u with
    | connectFail =>
      have ih := requestLoop_contacted net rest ts
      simp [requestLoop, hu, List.takeWhile_cons, ih]
    | ok cl chunks =>
      simp [requestLoop, hu, List.takeWhile_cons]
    | midStreamFail cl pre msg =>
      simp [requestLoop, hu, List.takeWhile_cons]

/-- When every candidate's connection fails, the loop ends with
`ValueError("All urls failed.")`. -/
theorem requestLoop_allFail (net : String → UrlBehavior) :
    ∀ (us : List String) (ts : Option Nat),
      (∀ u ∈ us, net u = .connectFail) →
      (requestLoop net us ts).outcome = .error (.valueError "All urls failed.")
  | [], _, _ => rfl
  | u :: rest, ts, h => by
    have hu : net u = .connectFail := h u (by simp)
    have ih := requestLoop_allFail net rest ts (fun v hv => h v (by simp [hv]))
    simp [requestLoop, hu, ih]

/-- C2: the candidate list of a `DownloadTask` is the primary URL followed
by the backup URLs in order; `request` contacts the candidates strictly in
that order — the leading connection failures, then the first URL that
answers and no URL after it — and when every candidate fails to connect it
raises `ValueError("All urls failed.")`. -/
theorem c2_failover_order (net : String → UrlBehavior) (m : Media) :
    m.urls = m.url :: m.backup_url
    ∧ (DownloadTask.request net m none).contacted
        = m.urls.takeWhile (fun u => net u == .connectFail)
          ++ (m.urls.drop
              (m.urls.takeWhile (fun u => net u == .connectFail)).length).take 1
    ∧ ((∀ u ∈ m.urls, net u = .connectFail) →
        (DownloadTask.request net m none).outcome
          = .error (.valueError "All urls failed.")) :=
  ⟨rfl, requestLoop_contacted net m.urls none,
    fun h => requestLoop_allFail net m.urls none h⟩

/-- C2 witness: with a failing primary and an answering backup the contact
order is primary then backup and nothing after the success; with both
candidates failing to connect the outcome is the all-urls-failed error. -/
theorem c2_failover_order_witness :
    (DownloadTask.request
        (fun u => if u = "primary" then .connectFail
          else .ok (some 8) [[1, 2, 3, 4], [5, 6, 7, 8]])
        { url := "primary", backup_url := ["backup"] } none).contacted
      = ["primary", "backup"]
    ∧ (DownloadTask.request (fun _ => .connectFail)
        { url := "primary", backup_url := ["backup"] } none).outcome
      = .error (.valueError "All urls failed.") := by
  constructor
  · exact ((c2_failover_order
      (fun u => if u = "primary" then .connectFail
        else .ok (some 8) [[1, 2, 3, 4], [5, 6, 7, 8]])
      { url := "primary", backup_url := ["backup"] }).2.1).trans (by decide)
  · exact (c2_failover_order (fun _ => .connectFail)
      { url := "primary", backup_url := ["backup"] }).2.2 (by decide)

/-- C1 (evaluating the code at the failing input): in direct execution mode
a batch of one downloader with a two-task pipeline — a pipeline that would
reach `Finished` if it were driven — returns with the downloader still in
`NOT_STARTED`, because `run_downloader` only instantiates the `download()`
generator and never iterates it (and still removes the save directory). -/
theorem c1_direct_mode_never_runs :
    BaseBatchDownloader.run_downloaders_directly true
        [{ tasks := [⟨"task 1", .ok ()⟩, ⟨"task 2", .ok ()⟩] }]
      = [(.notStarted, true)]
    ∧ (BaseDownloader.download
        { tasks := [⟨"task 1", .ok ()⟩, ⟨"task 2", .ok ()⟩] }).consume.state
      = .finished := by
  exact ⟨rfl, rfl⟩

/-- C5 (evaluating the code at the failing input): a transfer whose first
attempt yields `Content-Length = 8` and one 4-byte chunk and then fails
mid-stream is retried exactly once on a fresh session, but because
`self._total_size` is already set, the retried `request` generator skips
the size yield and `write` consumes the first chunk as `total_size`: the
final file is `[[5,6,7,8]]`, missing the first chunk of the resource. -/
theorem c5_rewrite_retry_drops_first_chunk :
    (DownloadTask.start
        (fun g _ => if g = 0
          then .midStreamFail (some 8) [[1, 2, 3, 4]] "Connection broken"
          else .ok (some 8) [[1, 2, 3, 4], [5, 6, 7, 8]])
        { url := "u", backup_url := [] })
      = { file := [[5, 6, 7, 8]]
          yields := [.size 8, .chunk [1, 2, 3, 4],
            .chunk [1, 2, 3, 4], .chunk [5, 6, 7, 8]]
          total_size := some 8
          finished := true
          clientGen := 1
          outcome := .ok () }
    ∧ (DownloadTask.start
        (fun g _ => if g = 0
          then .midStreamFail (some 8) [[1, 2, 3, 4]] "Connection broken"
          else .ok (some 8) [[1, 2, 3, 4], [5, 6, 7, 8]])
        { url := "u", backup_url := [] }).file
      ≠ [[1, 2, 3, 4], [5, 6, 7, 8]] := by
  exact ⟨by decide, by decide⟩

/-- C6 counterexample: in the direct execution path,
`run_downloader` removes the per-item save directory unconditionally —
here for an item whose pipeline (never driven, and failing if driven) did
not finish successfully — refuting "save-directory cleanup happens only
for items whose pipeline finished successfully". -/
theorem c6_direct_cleanup_counterexample :
    (BaseBatchDownloader.run_downloader true
        { tasks := [⟨"transfer", .error (.other "download failed")⟩] }).2
      = true
    ∧ (BaseBatchDownloader.run_downloader true
        { tasks := [⟨"transfer", .error (.other "download failed")⟩] }).1
      ≠ .finished := by
  exact ⟨rfl, by decide⟩

/-- Mapping a chunk list into yields and back keeps the chunks. -/
theorem filterMap_chunkData_map_chunk (l : List (List Nat)) :
    (l.map Yield.chunk).filterMap Yield.chunkData = l := by
  induction l with
  | nil => rfl
  | cons a l ih => simp [Yield.chunkData, ih]

/-- C10 counterexample: a resource with no `Content-Length` and two
chunks does fail with `ZeroDivisionError`, but the bytes are *not* all
fetched and written: the error on the first chunk's log line abandons the
lazy generator, so only the first chunk is in the file, the second is
never fetched, and the task never finishes. -/
theorem c10_counterexample :
    BaseDownloader.run_download_task (fun _ _ => .ok none [[1, 2], [3, 4]])
        { url := "u", backup_url := [] }
      = { outcome := .error .zeroDivisionError, file := [[1, 2]]
          finished := false }
    ∧ (BaseDownloader.run_download_task (fun _ _ => .ok none [[1, 2], [3, 4]])
        { url := "u", backup_url := [] }).file ≠ [[1, 2], [3, 4]] := by
  exact ⟨by decide, by decide⟩

/-- C10 (amended): when the first candidate URL answers with no
`Content-Length` header, the transfer's total size is set to 0 and yielded
as such; `run_download_task` computes `len(chunk) / total_size * 100` with
no zero guard, so for a resource with at least one chunk the first chunk's
log raises `ZeroDivisionError` and the drive is abandoned there: exactly
the first chunk has been written to the file, no later chunk is fetched,
and the task's `finished` flag stays false. -/
theorem c10_zero_total_size_division (net : Nat → String → UrlBehavior)
    (u : String) (backups : List String) (c : List Nat) (cs : List (List Nat))
    (h : net 0 u = .ok none (c :: cs)) :
    (DownloadTask.request (net 0) { url := u, backup_url := backups }
        none).yields.head? = some (.size 0)
    ∧ BaseDownloader.run_download_task net { url := u, backup_url := backups }
      = { outcome := .error .zeroDivisionError, file := [c]
          finished := false } := by
  have hreq : DownloadTask.request (net 0) { url := u, backup_url := backups } none
      = { contacted := [u], yields := .size 0 :: (c :: cs).map .chunk
          total_size := some 0, outcome := .ok () } := by
    simp [DownloadTask.request, Media.urls, requestLoop, h, responseYields]
  have hwrite : DownloadTask.write (net 0) { url := u, backup_url := backups } none
      = { file := c :: cs, yields := .size 0 :: (c :: cs).map .chunk
          total_size := some 0, outcome := .ok () } := by
    rw [DownloadTask.write, hreq]
    dsimp only
    rw [filterMap_chunkData_map_chunk]
  have hse : DownloadTask.startEvents net { url := u, backup_url := backups }
      = { events := writeEvents (.size 0 :: (c :: cs).map .chunk)
          finished := true, outcome := .ok () } := by
    rw [DownloadTask.startEvents, hwrite]
  refine ⟨by rw [hreq]; rfl, ?_⟩
  rw [BaseDownloader.run_download_task, hse]
  rfl

/-- C10 witness: a single URL answering with no `Content-Length` and one
chunk; that chunk lands in the file, yet the driver fails with
`ZeroDivisionError` and the task never finishes. -/
theorem c10_zero_total_size_division_witness :
    BaseDownloader.run_download_task (fun _ _ => .ok none [[9, 9]])
        { url := "u", backup_url := [] }
      = { outcome := .error .zeroDivisionError, file := [[9, 9]]
          finished := false } := by
  have h := c10_zero_total_size_division (fun _ _ => .ok none [[9, 9]])
    "u" [] [9, 9] [] rfl
  exact h.2

/-- Running the task loop past a prefix of succeeding tasks executes them
all, in order, and continues with the rest. -/
theorem run_tasks_ok_append (pre rest : List PTask)
    (h : ∀ p ∈ pre, p.result = .ok ()) :
    BaseDownloader.run_tasks (pre ++ rest)
      = (pre.map PTask.task_name ++ (BaseDownloader.run_tasks rest).1,
        (BaseDownloader.run_tasks rest).2) := by
  induction pre with
  | nil => simp
  | cons t pre ih =>
    have ht : t.result = .ok () := h t (by simp)
    have ih := ih (fun p hp => h p (by simp [hp]))
    simp [BaseDownloader.run_tasks, ht, ih]

/-- C4: when a pipeline task raises while `download()` is being driven, no
later task executes (the cleanup task included); for a non-interrupt
exception the state becomes `Failed`, `exc_info` records the exception with
its traceback text, exactly one error entry is logged, and nothing is
re-raised; a `KeyboardInterrupt` propagates immediately instead. -/
theorem c4_pipeline_short_circuit (pre post : List PTask) (t : PTask)
    (e : Exc) (h1 : ∀ p ∈ pre, p.result = .ok ())
    (h2 : t.result = .error e) :
    let r := (BaseDownloader.download { tasks := pre ++ t :: post }).consume
    r.executed = pre.map PTask.task_name ++ [t.task_name]
    ∧ (e ≠ .keyboardInterrupt →
        r.state = .failed ∧ r.exc_info = some (e, format_exc e)
        ∧ r.errorLogs = 1 ∧ r.raised = none)
    ∧ (e = .keyboardInterrupt →
        r.raised = some .keyboardInterrupt ∧ r.state = .started
        ∧ r.errorLogs = 0) := by
  have hrt : BaseDownloader.run_tasks (pre ++ t :: post)
      = (pre.map PTask.task_name ++ [t.task_name], .error e) := by
    rw [run_tasks_ok_append pre (t :: post) h1]
    simp [BaseDownloader.run_tasks, h2]
  by_cases hKI : e = .keyboardInterrupt
  · simp [DownloadGen.consume, BaseDownloader.download, hrt, hKI]
  · simp [DownloadGen.consume, BaseDownloader.download, hrt, hKI]

/-- C4 witness: a five-task pipeline whose second task raises executes
exactly tasks 1 and 2, ends `Failed`, and re-raises nothing. -/
theorem c4_pipeline_short_circuit_witness :
    (BaseDownloader.download
        { tasks := [⟨"prepare media", .ok ()⟩,
            ⟨"download", .error (.other "boom")⟩,
            ⟨"process", .ok ()⟩, ⟨"remux", .ok ()⟩,
            ⟨"clean temp dir", .ok ()⟩] }).consume.executed
      = ["prepare media", "download"]
    ∧ (BaseDownloader.download
        { tasks := [⟨"prepare media", .ok ()⟩,
            ⟨"download", .error (.other "boom")⟩,
            ⟨"process", .ok ()⟩, ⟨"remux", .ok ()⟩,
            ⟨"clean temp dir", .ok ()⟩] }).consume.state = .failed
    ∧ (BaseDownloader.download
        { tasks := [⟨"prepare media", .ok ()⟩,
            ⟨"download", .error (.other "boom")⟩,
            ⟨"process", .ok ()⟩, ⟨"remux", .ok ()⟩,
            ⟨"clean temp dir", .ok ()⟩] }).consume.raised = none := by
  have h := c4_pipeline_short_circuit
    [⟨"prepare media", .ok ()⟩]
    [⟨"process", .ok ()⟩, ⟨"remux", .ok ()⟩, ⟨"clean temp dir", .ok ()⟩]
    ⟨"download", .error (.other "boom")⟩ (.other "boom")
    (by decide) rfl
  exact ⟨h.1.trans (by decide), (h.2.1 (by decide)).1,
    (h.2.1 (by decide)).2.2.2⟩

/-- A drive that re-raised nothing ended in `Finished` or `Failed`. -/
theorem consume_raised_none (g : DownloadGen)
    (h : g.consume.raised = none) :
    g.consume.state = .finished ∨ g.consume.state = .failed := by
  cases hres : (BaseDownloader.run_tasks g.downloader.tasks).2 with
  | ok v => left; simp [DownloadGen.consume, hres]
  | error e =>
    by_cases hKI : e = .keyboardInterrupt
    · exfalso
      simp [DownloadGen.consume, hres, hKI] at h
    · right; simp [DownloadGen.consume, hres, hKI]

/-- C6 (amended, progress-driven path): with the default flags, the log
file and the output file are relocated and the per-item save directory is
cleaned exactly when the item's pipeline finished successfully, the
decision being a function of the settled final state; a failed item's
artifacts are all left in place. -/
theorem c6_relocation_only_on_success (d : ItemDownloader)
    (h : (BaseDownloader.download d).consume.raised = none) :
    let r := BaseBatchDownloader.update_downloader_progress
      ⟨true, true, true⟩ d
    r.movedLogFile = (r.finalState == .finished)
    ∧ r.movedOutputFile = (r.finalState == .finished)
    ∧ r.cleanedSaveDir = (r.finalState == .finished)
    ∧ (r.finalState = .failed →
        r.movedLogFile = false ∧ r.movedOutputFile = false
        ∧ r.cleanedSaveDir = false)
    ∧ r.finalState = (BaseDownloader.download d).consume.state := by
  have hsf := consume_raised_none (BaseDownloader.download d) h
  by_cases hfail :
      (BaseDownloader.download d).consume.state = .failed
  · simp [BaseBatchDownloader.update_downloader_progress, h, hfail]
  · have hfin : (BaseDownloader.download d).consume.state = .finished := by
      rcases hsf with hf | hf
      · exact hf
      · exact absurd hf hfail
    simp [BaseBatchDownloader.update_downloader_progress, h, hfail, hfin]

/-- C6 witness: a failing item relocates nothing, a succeeding item has
its save directory cleaned. -/
theorem c6_relocation_only_on_success_witness :
    (BaseBatchDownloader.update_downloader_progress ⟨true, true, true⟩
        { tasks := [⟨"transfer", .error (.other "boom")⟩] }).movedLogFile
      = false
    ∧ (BaseBatchDownloader.update_downloader_progress ⟨true, true, true⟩
        { tasks := [⟨"transfer", .ok ()⟩] }).cleanedSaveDir = true := by
  constructor
  · exact ((c6_relocation_only_on_success
      { tasks := [⟨"transfer", .error (.other "boom")⟩] }
      (by decide)).1).trans (by decide)
  · exact ((c6_relocation_only_on_success
      { tasks := [⟨"transfer", .ok ()⟩] }
      (by decide)).2.2.1).trans (by decide)

/-- A predicate and its complement count up to the length. -/
theorem countP_not_add_countP {α : Type} (p : α → Bool) (l : List α) :
    l.countP (fun a => !(p a)) + l.countP p = l.length := by
  induction l with
  | nil => rfl
  | cons a l ih =>
    by_cases h : p a <;> simp [List.countP_cons, h] <;> omega

/-- Closed form of the progress-mode batch run when no item re-raises:
every downloader is driven, the two counters each receive one increment
per item — success for a non-`Failed` final state, failure otherwise. -/
theorem runBatchProgress_spec (fl : BatchFlags) (ds : List ItemDownloader) :
    ∀ (s f : Nat),
      (∀ d ∈ ds, (BaseDownloader.download d).consume.raised = none) →
      runBatchProgress fl ds s f
        = (s + ds.countP
              (fun d => !((BaseDownloader.download d).consume.state == .failed)),
          f + ds.countP
              (fun d => (BaseDownloader.download d).consume.state == .failed),
          none) := by
  induction ds with
  | nil => intro s f _; simp [runBatchProgress]
  | cons d rest ih =>
    intro s f h
    have hd := h d (by simp)
    have hrest : ∀ p ∈ rest,
        (BaseDownloader.download p).consume.raised = none :=
      fun p hp => h p (List.mem_cons_of_mem d hp)
    by_cases hfail : (BaseDownloader.download d).consume.state = .failed
    · have hstep : runBatchProgress fl (d :: rest) s f
          = runBatchProgress fl rest s (f + 1) := by
        simp [runBatchProgress,
          BaseBatchDownloader.update_downloader_progress, hd, hfail]
      rw [hstep, ih s (f + 1) hrest]
      simp only [List.countP_cons, hfail, Prod.mk.injEq]
      refine ⟨by simp, by simp; omega, trivial⟩
    · have hstep : runBatchProgress fl (d :: rest) s f
          = runBatchProgress fl rest (s + 1) f := by
        simp [runBatchProgress,
          BaseBatchDownloader.update_downloader_progress, hd, hfail]
      rw [hstep, ih (s + 1) f hrest]
      simp only [List.countP_cons, Prod.mk.injEq]
      have hb : ((BaseDownloader.download d).consume.state == .failed)
          = false := by
        simpa using hfail
      refine ⟨by simp [hb]; omega, by simp [hb], trivial⟩

/-- C7: in a progress-mode batch run with no interrupts, the counters after
any prefix of `k` items sum to exactly `k` (so they never exceed the number
of downloaders), and each processed item adds exactly one to exactly one of
`success_count` / `failed_count` — both counters only ever increase. -/
theorem c7_batch_counters (fl : BatchFlags) (ds : List ItemDownloader)
    (h : ∀ d ∈ ds, (BaseDownloader.download d).consume.raised = none) :
    (∀ k, k ≤ ds.length →
      (batchCounts fl (ds.take k)).1 + (batchCounts fl (ds.take k)).2.1 = k)
    ∧ (∀ k, k < ds.length →
      ((batchCounts fl (ds.take (k + 1))).1
          = (batchCounts fl (ds.take k)).1 + 1
        ∧ (batchCounts fl (ds.take (k + 1))).2.1
          = (batchCounts fl (ds.take k)).2.1)
      ∨ ((batchCounts fl (ds.take (k + 1))).1
          = (batchCounts fl (ds.take k)).1
        ∧ (batchCounts fl (ds.take (k + 1))).2.1
          = (batchCounts fl (ds.take k)).2.1 + 1)) := by
  have hspec : ∀ k, batchCounts fl (ds.take k)
      = ((ds.take k).countP
            (fun d => !((BaseDownloader.download d).consume.state == .failed)),
        (ds.take k).countP
            (fun d => (BaseDownloader.download d).consume.state == .failed),
        none) := by
    intro k
    unfold batchCounts
    rw [runBatchProgress_spec fl (ds.take k) 0 0
      (fun d hd => h d (List.take_subset k ds hd))]
    simp
  constructor
  · intro k hk
    rw [hspec k]
    have hsum := countP_not_add_countP
      (fun d => (BaseDownloader.download d).consume.state == .failed)
      (ds.take k)
    have hlen : (ds.take k).length = k := by
      rw [List.length_take]
      omega
    dsimp only
    omega
  · intro k hk
    have htake : ds.take (k + 1) = ds.take k ++ [ds[k]] := by
      rw [List.take_succ, List.getElem?_eq_getElem hk]
      rfl
    rw [hspec k, hspec (k + 1), htake]
    dsimp only
    rw [List.countP_append, List.countP_append]
    by_cases hfail : (BaseDownloader.download ds[k]).consume.state = .failed
    · right
      constructor <;> simp [List.countP_cons, hfail]
    · left
      have hb : ((BaseDownloader.download ds[k]).consume.state == .failed)
          = false := by
        simpa using hfail
      constructor <;> simp [List.countP_cons, hb]

/-- C7 witness: a three-item batch whose second item's pipeline raises ends
with `success_count = 2`, `failed_count = 1`, and the counters over the
full prefix sum to 3. -/
theorem c7_batch_counters_witness :
    (batchCounts ⟨true, true, true⟩
        [{ tasks := [⟨"a", .ok ()⟩] },
          { tasks := [⟨"b", .error (.other "boom")⟩] },
          { tasks := [⟨"c", .ok ()⟩] }]).1 = 2
    ∧ (batchCounts ⟨true, true, true⟩
        [{ tasks := [⟨"a", .ok ()⟩] },
          { tasks := [⟨"b", .error (.other "boom")⟩] },
          { tasks := [⟨"c", .ok ()⟩] }]).2.1 = 1
    ∧ (batchCounts ⟨true, true, true⟩
          ([{ tasks := [⟨"a", .ok ()⟩] },
            { tasks := [⟨"b", .error (.other "boom")⟩] },
            { tasks := [⟨"c", .ok ()⟩] }].take 3)).1
      + (batchCounts ⟨true, true, true⟩
          ([{ tasks := [⟨"a", .ok ()⟩] },
            { tasks := [⟨"b", .error (.other "boom")⟩] },
            { tasks := [⟨"c", .ok ()⟩] }].take 3)).2.1 = 3 := by
  refine ⟨by decide, by decide, ?_⟩
  exact (c7_batch_counters ⟨true, true, true⟩
    [{ tasks := [⟨"a", .ok ()⟩] },
      { tasks := [⟨"b", .error (.other "boom")⟩] },
      { tasks := [⟨"c", .ok ()⟩] }] (by decide)).1 3 (by decide)

end SpidersForAll
